import Mathlib

/-
Verification of the natural-language design notes of TheChernoOpenGL
(src/TheChernoOpenGL/src/application.cpp) against a shallow embedding of
that program.

The program is straight-line setup code wrapping the OpenGL/GLFW API.
We embed it as follows:
- every call into the graphics or windowing API is recorded as an `Event`;
- the driver side (compile status flags, info logs, generated object
  handles) is an oracle `Driver` supplied as a parameter;
- console output (std::cout lines) is a `List String`;
- C floats are modelled as rationals (all literals in the program are
  exactly representable);
- the frame loop `while (!glfwWindowShouldClose(window))` is driven by a
  finite list of successive answers of `glfwWindowShouldClose`.
-/

namespace GLApp

/-- Shader kinds occurring in the program: GL_VERTEX_SHADER and
GL_FRAGMENT_SHADER. -/
inductive ShaderType
  | vertex
  | fragment
deriving DecidableEq, Repr

/-- Primitive mode of a draw call; the program only uses GL_TRIANGLES. -/
inductive DrawMode
  | triangles
deriving DecidableEq, Repr

/-- Observable calls into the graphics and windowing API, in the order the
program issues them.  `drawArrays` is the non-indexed draw
(glDrawArrays); `drawElements` is the indexed draw (glDrawElements), which
the program never issues but which the event alphabet must contain to
state claims about indexed draws. -/
inductive Event
  | createWindow (width : Nat) (height : Nat) (title : String)
  | makeContextCurrent
  | createShaderObj (ty : ShaderType) (id : Nat)
  | shaderSource (id : Nat) (src : String)
  | compile (id : Nat)
  | getInfoLog (id : Nat) (maxLength : Nat)
  | deleteShader (id : Nat)
  | createProgram (id : Nat)
  | attachShader (program : Nat) (shader : Nat)
  | linkProgram (id : Nat)
  | validateProgram (id : Nat)
  | genBuffer (id : Nat)
  | bindBuffer (id : Nat)
  | bufferData (sizeBytes : Nat) (data : List ℚ)
  | enableVertexAttribArray (index : Nat)
  | vertexAttribPointer (index : Nat) (size : Nat) (strideBytes : Nat) (offset : Nat)
  | useProgram (id : Nat)
  | clearColor (r : ℚ) (g : ℚ) (b : ℚ) (a : ℚ)
  | clear
  | drawArrays (mode : DrawMode) (first : Nat) (count : Nat)
  | drawElements (mode : DrawMode) (count : Nat)
  | swapBuffers
  | pollEvents
  | deleteProgram (id : Nat)
  | terminate
deriving DecidableEq, Repr

/-- The driver-side oracle: everything the graphics driver reports back to
the program.  `shaderId` is the handle glCreateShader returns for each
type, `compileStatus` the GL_COMPILE_STATUS flag (GL_FALSE = false),
`infoLogLength` the GL_INFO_LOG_LENGTH value, `infoLog` the text
glGetShaderInfoLog writes, `programId` the handle glCreateProgram
returns, and `linkStatus` / `validateStatus` the link and validation
outcomes (which the program never queries). -/
structure Driver where
  shaderId : ShaderType → Nat
  compileStatus : ShaderType → String → Bool
  infoLogLength : ShaderType → String → Nat
  infoLog : ShaderType → String → String
  programId : Nat
  linkStatus : Bool
  validateStatus : Bool

/-- Result of `CompileShader`: the returned handle, the console lines it
printed, and the API calls it issued. -/
structure CompileResult where
  id : Nat
  output : List String
  events : List Event
deriving DecidableEq, Repr

/-- Embedding of `static int CompileShader(unsigned int type, const
std::string& source)`.  It creates a shader object, sources and compiles
it, and queries GL_COMPILE_STATUS; if that is GL_FALSE it queries
GL_INFO_LOG_LENGTH, fetches the log into a buffer of that length, prints
a header line and the log, deletes the shader and returns 0; otherwise it
returns the shader id. -/
def CompileShader (d : Driver) (ty : ShaderType) (source : String) : CompileResult :=
  let id := d.shaderId ty
  let pre : List Event :=
    [Event.createShaderObj ty id, Event.shaderSource id source, Event.compile id]
  if d.compileStatus ty source = false then
    let length := d.infoLogLength ty source
    let message := d.infoLog ty source
    { id := 0
      output :=
        ["(EE) Failed to compile " ++
            (if ty = ShaderType.vertex then "vertex" else "fragment") ++ "shader:",
          message]
      events := pre ++ [Event.getInfoLog id length, Event.deleteShader id] }
  else
    { id := id, output := [], events := pre }

/-- Result of `CreateShader`: the returned program handle, console lines,
and API calls. -/
structure CreateResult where
  program : Nat
  output : List String
  events : List Event
deriving DecidableEq, Repr

/-- Embedding of `static unsigned int CreateShader(const std::string&
vertexShader, const std::string& fragmentShader)`.  It creates a program,
compiles both shaders, attaches whatever handles compilation returned,
links, validates, deletes the two shader handles and returns the program
handle, with no branch anywhere. -/
def CreateShader (d : Driver) (vertexShader : String) (fragmentShader : String) :
    CreateResult :=
  let program := d.programId
  let vs := CompileShader d ShaderType.vertex vertexShader
  let fs := CompileShader d ShaderType.fragment fragmentShader
  { program := program
    output := vs.output ++ fs.output
    events :=
      [Event.createProgram program] ++ vs.events ++ fs.events ++
        [Event.attachShader program vs.id, Event.attachShader program fs.id,
          Event.linkProgram program, Event.validateProgram program,
          Event.deleteShader vs.id, Event.deleteShader fs.id] }

/-- Boolean test: is this console line non-empty? -/
def nonemptyLine (l : String) : Bool := l != ""

/-- A concrete driver whose compilations always fail, used to instantiate
theorems about the failure path. -/
def driverFail : Driver :=
  { shaderId := fun ty => match ty with | ShaderType.vertex => 1 | ShaderType.fragment => 2
    compileStatus := fun _ _ => false
    infoLogLength := fun _ _ => 10
    infoLog := fun _ _ => "syntax error"
    programId := 3
    linkStatus := false
    validateStatus := false }

/-- A concrete driver whose compilations always succeed, used to
instantiate theorems about the success path. -/
def driverOk : Driver :=
  { shaderId := fun ty => match ty with | ShaderType.vertex => 1 | ShaderType.fragment => 2
    compileStatus := fun _ _ => true
    infoLogLength := fun _ _ => 0
    infoLog := fun _ _ => ""
    programId := 3
    linkStatus := true
    validateStatus := true }

/-- Claim C1: whenever the driver reports compilation failure (GL_FALSE),
`CompileShader` fetches the info log with the driver-reported length,
prints a non-empty diagnostic, deletes the shader object it created, and
returns the sentinel 0 (and, being a total function, it returns rather
than crashing). -/
theorem compileShader_failure_path (d : Driver) (ty : ShaderType) (source : String)
    (h : d.compileStatus ty source = false) :
    (CompileShader d ty source).id = 0 ∧
    Event.getInfoLog (d.shaderId ty) (d.infoLogLength ty source)
      ∈ (CompileShader d ty source).events ∧
    Event.deleteShader (d.shaderId ty) ∈ (CompileShader d ty source).events ∧
    (CompileShader d ty source).output ≠ [] ∧
    (CompileShader d ty source).output.any nonemptyLine = true := by
  refine ⟨?_, ?_, ?_, ?_, ?_⟩ <;>
    cases ty <;>
      simp [CompileShader, h, nonemptyLine]

/-- Witness for C1 at a concrete failing driver and source. -/
theorem compileShader_failure_path_witness :
    driverFail.compileStatus ShaderType.vertex "bad source" = false ∧
    ((CompileShader driverFail ShaderType.vertex "bad source").id = 0 ∧
      Event.getInfoLog (driverFail.shaderId ShaderType.vertex)
          (driverFail.infoLogLength ShaderType.vertex "bad source")
        ∈ (CompileShader driverFail ShaderType.vertex "bad source").events ∧
      Event.deleteShader (driverFail.shaderId ShaderType.vertex)
        ∈ (CompileShader driverFail ShaderType.vertex "bad source").events ∧
      (CompileShader driverFail ShaderType.vertex "bad source").output ≠ [] ∧
      (CompileShader driverFail ShaderType.vertex "bad source").output.any nonemptyLine
        = true) :=
  ⟨rfl, compileShader_failure_path driverFail ShaderType.vertex "bad source" rfl⟩

/-- Claim C2: `CreateShader` contains no failure handling: even when a
compilation fails and `CompileShader` returns the sentinel 0, the zero
handle is still attached, the program is still linked and validated, and
the program handle is still returned. -/
theorem createShader_no_failure_containment (d : Driver) (v : String) (f : String)
    (h : d.compileStatus ShaderType.vertex v = false ∨
      d.compileStatus ShaderType.fragment f = false) :
    (CreateShader d v f).program = d.programId ∧
    Event.attachShader d.programId 0 ∈ (CreateShader d v f).events ∧
    Event.linkProgram d.programId ∈ (CreateShader d v f).events ∧
    Event.validateProgram d.programId ∈ (CreateShader d v f).events := by
  refine ⟨rfl, ?_, ?_, ?_⟩ <;>
    rcases h with h | h <;>
      simp [CreateShader, CompileShader, h]

/-- Witness for C2 at a concrete driver whose compilations all fail. -/
theorem createShader_no_failure_containment_witness :
    driverFail.compileStatus ShaderType.vertex "v" = false ∧
    ((CreateShader driverFail "v" "f").program = driverFail.programId ∧
      Event.attachShader driverFail.programId 0 ∈ (CreateShader driverFail "v" "f").events ∧
      Event.linkProgram driverFail.programId ∈ (CreateShader driverFail "v" "f").events ∧
      Event.validateProgram driverFail.programId
        ∈ (CreateShader driverFail "v" "f").events) :=
  ⟨rfl, createShader_no_failure_containment driverFail "v" "f" (Or.inl rfl)⟩

/-- The six floats of `float positions[6]` in main: three two-component
points (-0.5,-0.5), (0.0,0.5), (0.5,-0.5), as exact rationals. -/
def positions : List ℚ := [-(1/2), -(1/2), 0, 1/2, 1/2, -(1/2)]

/-- The embedded vertex shader source string of main (braces written as
escapes). -/
def vertexShaderSrc : String :=
  "#version 330 core\n\nlayout(location = 0) in vec4 position;\n\nvoid main()\n\x7b\n   gl_Position = position;\n\x7d\n"

/-- The embedded fragment shader source string of main. -/
def fragmentShaderSrc : String :=
  "#version 330 core\n\nlayout(location = 0) out vec4 color;\n\nvoid main()\n\x7b\n   color = vec4(1.0, 0.0, 0.0, 1.0);\n\x7d\n"

/-- The API calls of one iteration of the while-loop body, in program
order: glClearColor(0.2, 0.2, 0.3, 1.0), glClear, glDrawArrays of 3
vertices as GL_TRIANGLES, glfwSwapBuffers, glfwPollEvents. -/
def iterEvents : List Event :=
  [Event.clearColor (1/5) (1/5) (3/10) 1, Event.clear,
    Event.drawArrays DrawMode.triangles 0 3,
    Event.swapBuffers, Event.pollEvents]

/-- Embedding of `while (!glfwWindowShouldClose(window)) ... `, driven by
the finite list of successive answers of glfwWindowShouldClose: each
iteration first checks one answer; a `true` exits the loop, a `false`
runs the body once and continues. -/
def frameLoop : List Bool → List Event
  | [] => []
  | true :: _ => []
  | false :: rest => iterEvents ++ frameLoop rest

/-- The environment main runs in: the driver oracle, whether glfwInit and
glfwCreateWindow succeed, the buffer handle glGenBuffers writes, the
GL_VERSION string, and the successive answers of
glfwWindowShouldClose. -/
structure Env where
  driver : Driver
  initOk : Bool
  windowOk : Bool
  bufferId : Nat
  glVersion : String
  polls : List Bool

/-- Result of main: process return code, console lines, API calls. -/
structure MainResult where
  ret : Int
  output : List String
  events : List Event
deriving DecidableEq, Repr

/-- Embedding of `int main(void)`.  If glfwInit fails it returns -1 at
once; if glfwCreateWindow returns null it calls glfwTerminate and
returns -1; otherwise it makes the context current, prints GL_VERSION,
generates/binds/fills the vertex buffer (6 floats, 24 bytes), configures
attribute 0 (2 floats, stride 8, offset 0), builds the shader program
from the two embedded sources, uses it, runs the frame loop, deletes the
program, terminates and returns 0. -/
def main (env : Env) : MainResult :=
  if env.initOk = false then
    { ret := -1, output := [], events := [] }
  else if env.windowOk = false then
    { ret := -1, output := [],
      events := [Event.createWindow 640 480 "Hello World", Event.terminate] }
  else
    let cs := CreateShader env.driver vertexShaderSrc fragmentShaderSrc
    { ret := 0
      output := [env.glVersion] ++ cs.output
      events :=
        [Event.createWindow 640 480 "Hello World", Event.makeContextCurrent,
          Event.genBuffer env.bufferId, Event.bindBuffer env.bufferId,
          Event.bufferData (6 * 4) positions,
          Event.enableVertexAttribArray 0,
          Event.vertexAttribPointer 0 2 8 0] ++
        cs.events ++ [Event.useProgram cs.program] ++
        frameLoop env.polls ++
        [Event.deleteProgram cs.program, Event.terminate] }

/-- The two states of the loop state machine described by the spec. -/
inductive LoopState
  | Running
  | Closed
deriving DecidableEq, Repr

/-- Modelled from the spec: one transition of the two-state frame-loop
machine of section 4.2.  In Running, a reported close request moves to
Closed with no output; no close request stays in Running and emits one
iteration of loop-body calls; Closed absorbs everything and emits
nothing. -/
def loopStep : LoopState → Bool → LoopState × List Event
  | LoopState.Running, true => (LoopState.Closed, [])
  | LoopState.Running, false => (LoopState.Running, iterEvents)
  | LoopState.Closed, _ => (LoopState.Closed, [])

/-- Modelled from the spec: running the two-state machine over a list of
close-request answers, consuming exactly one answer per step. -/
def machineRun : LoopState → List Bool → List Event
  | _, [] => []
  | s, b :: rest => (loopStep s b).2 ++ machineRun (loopStep s b).1 rest

/-- Boolean test: is this event a glBufferData upload? -/
def isBufferData : Event → Bool
  | Event.bufferData _ _ => true
  | _ => false

/-- Boolean test: is this event a draw call (indexed or not)? -/
def isDrawCall : Event → Bool
  | Event.drawArrays _ _ _ => true
  | Event.drawElements _ _ => true
  | _ => false

/-- Boolean test: is this event an indexed draw (glDrawElements)? -/
def isIndexedDraw : Event → Bool
  | Event.drawElements _ _ => true
  | _ => false

/-- Boolean test: if this event is a draw call, does it draw exactly 3
vertices?  Non-draw events pass vacuously. -/
def drawCountOk : Event → Bool
  | Event.drawArrays _ _ count => count = 3
  | Event.drawElements _ count => count = 3
  | _ => true

/-- A concrete environment where everything succeeds and the window is
closed after one frame. -/
def envOk : Env :=
  { driver := driverOk, initOk := true, windowOk := true, bufferId := 5,
    glVersion := "3.3.0", polls := [false, true] }

/-- A concrete environment where glfwInit fails. -/
def envNoInit : Env :=
  { driver := driverOk, initOk := false, windowOk := true, bufferId := 5,
    glVersion := "3.3.0", polls := [] }

/-- A concrete environment where glfwInit succeeds but glfwCreateWindow
returns null. -/
def envNoWindow : Env :=
  { driver := driverOk, initOk := true, windowOk := false, bufferId := 5,
    glVersion := "3.3.0", polls := [] }

lemma machineRun_closed (p : List Bool) : machineRun LoopState.Closed p = [] := by
  induction p with
  | nil => rfl
  | cons b rest ih => simp [machineRun, loopStep, ih]

lemma compileShader_filter_bufferData (d : Driver) (ty : ShaderType) (s : String) :
    (CompileShader d ty s).events.filter isBufferData = [] := by
  unfold CompileShader
  split <;> simp [isBufferData]

lemma createShader_filter_bufferData (d : Driver) (v : String) (f : String) :
    (CreateShader d v f).events.filter isBufferData = [] := by
  simp [CreateShader, List.filter_append, compileShader_filter_bufferData, isBufferData]

lemma frameLoop_filter_bufferData (polls : List Bool) :
    (frameLoop polls).filter isBufferData = [] := by
  induction polls with
  | nil => rfl
  | cons b rest ih =>
    cases b
    · simp [frameLoop, List.filter_append, iterEvents, isBufferData, ih]
    · rfl

lemma compileShader_all_drawCountOk (d : Driver) (ty : ShaderType) (s : String) :
    (CompileShader d ty s).events.all drawCountOk = true := by
  unfold CompileShader
  split <;> simp [drawCountOk]

lemma createShader_all_drawCountOk (d : Driver) (v : String) (f : String) :
    (CreateShader d v f).events.all drawCountOk = true := by
  simp [CreateShader, List.all_append, compileShader_all_drawCountOk, drawCountOk]

lemma frameLoop_all_drawCountOk (polls : List Bool) :
    (frameLoop polls).all drawCountOk = true := by
  induction polls with
  | nil => rfl
  | cons b rest ih =>
    cases b
    · simp [frameLoop, List.all_append, iterEvents, drawCountOk, ih]
    · rfl

/-- Claim C3 (amended): every iteration while Running performs exactly
this sequence: set the fixed clear color and clear the color buffer,
issue one NON-indexed array draw (glDrawArrays) of 3 vertices as a
triangle list, present the back buffer, and process pending window
events. -/
theorem frameLoop_iteration_sequence (rest : List Bool) :
    frameLoop (false :: rest) =
      [Event.clearColor (1/5) (1/5) (3/10) 1, Event.clear,
        Event.drawArrays DrawMode.triangles 0 3,
        Event.swapBuffers, Event.pollEvents] ++ frameLoop rest := rfl

/-- Counterexample to C3 as stated: an iteration of the loop does run
(the emitted call list is non-empty) yet contains no indexed draw
(glDrawElements) at all — the one draw issued is the non-indexed
glDrawArrays. -/
theorem frameLoop_no_indexed_draw_cex :
    (frameLoop [false]).any isIndexedDraw = false ∧ frameLoop [false] ≠ [] := by
  constructor
  · rfl
  · simp [frameLoop, iterEvents]

/-- Claim C4: when both compilations succeed, `CreateShader` attaches the
two compiled shaders, links the program, validates it, deletes both
intermediate shader objects, and returns the handle produced by
glCreateProgram — shown by the exact call sequence. -/
theorem createShader_success_path (d : Driver) (v : String) (f : String)
    (h1 : d.compileStatus ShaderType.vertex v = true)
    (h2 : d.compileStatus ShaderType.fragment f = true) :
    (CreateShader d v f).program = d.programId ∧
    (CreateShader d v f).events =
      [Event.createProgram d.programId,
        Event.createShaderObj ShaderType.vertex (d.shaderId ShaderType.vertex),
        Event.shaderSource (d.shaderId ShaderType.vertex) v,
        Event.compile (d.shaderId ShaderType.vertex),
        Event.createShaderObj ShaderType.fragment (d.shaderId ShaderType.fragment),
        Event.shaderSource (d.shaderId ShaderType.fragment) f,
        Event.compile (d.shaderId ShaderType.fragment),
        Event.attachShader d.programId (d.shaderId ShaderType.vertex),
        Event.attachShader d.programId (d.shaderId ShaderType.fragment),
        Event.linkProgram d.programId,
        Event.validateProgram d.programId,
        Event.deleteShader (d.shaderId ShaderType.vertex),
        Event.deleteShader (d.shaderId ShaderType.fragment)] ∧
    (CreateShader d v f).output = [] := by
  refine ⟨rfl, ?_, ?_⟩ <;> simp [CreateShader, CompileShader, h1, h2]

/-- Witness for C4 at a concrete driver whose compilations succeed. -/
theorem createShader_success_path_witness :
    driverOk.compileStatus ShaderType.vertex "v" = true ∧
    driverOk.compileStatus ShaderType.fragment "f" = true ∧
    ((CreateShader driverOk "v" "f").program = driverOk.programId ∧
      (CreateShader driverOk "v" "f").events =
        [Event.createProgram driverOk.programId,
          Event.createShaderObj ShaderType.vertex (driverOk.shaderId ShaderType.vertex),
          Event.shaderSource (driverOk.shaderId ShaderType.vertex) "v",
          Event.compile (driverOk.shaderId ShaderType.vertex),
          Event.createShaderObj ShaderType.fragment (driverOk.shaderId ShaderType.fragment),
          Event.shaderSource (driverOk.shaderId ShaderType.fragment) "f",
          Event.compile (driverOk.shaderId ShaderType.fragment),
          Event.attachShader driverOk.programId (driverOk.shaderId ShaderType.vertex),
          Event.attachShader driverOk.programId (driverOk.shaderId ShaderType.fragment),
          Event.linkProgram driverOk.programId,
          Event.validateProgram driverOk.programId,
          Event.deleteShader (driverOk.shaderId ShaderType.vertex),
          Event.deleteShader (driverOk.shaderId ShaderType.fragment)] ∧
      (CreateShader driverOk "v" "f").output = []) :=
  ⟨rfl, rfl, createShader_success_path driverOk "v" "f" rfl rfl⟩

/-- Claim C5: the frame loop is exactly the run of the spec's two-state
machine started in Running: it consumes one close-request answer per
iteration, stays in Running on false, moves to Closed on true, and a run
from Closed emits nothing — in particular no draw call ever follows the
transition to Closed. -/
theorem frameLoop_two_state_machine (polls : List Bool) :
    frameLoop polls = machineRun LoopState.Running polls ∧
    machineRun LoopState.Closed polls = [] ∧
    (machineRun LoopState.Closed polls).countP isDrawCall = 0 := by
  refine ⟨?_, machineRun_closed polls, by simp [machineRun_closed polls]⟩
  induction polls with
  | nil => rfl
  | cons b rest ih =>
    cases b
    · simp [frameLoop, machineRun, loopStep, ih]
    · simp [frameLoop, machineRun, loopStep, machineRun_closed]

/-- Claim C6: in a full run of main (init and window creation succeed),
the buffer upload happens exactly once and carries exactly the 6 floats
of `positions` (3 two-component points), and every draw call in the whole
run draws exactly 3 vertices. -/
theorem vertex_buffer_invariant (env : Env)
    (h1 : env.initOk = true) (h2 : env.windowOk = true) :
    (main env).events.filter isBufferData = [Event.bufferData (6 * 4) positions] ∧
    positions.length = 2 * 3 ∧
    (main env).events.all drawCountOk = true := by
  refine ⟨?_, rfl, ?_⟩
  · simp [main, h1, h2, List.filter_append, isBufferData,
      createShader_filter_bufferData, frameLoop_filter_bufferData]
  · simp [main, h1, h2, List.all_append, drawCountOk,
      createShader_all_drawCountOk, frameLoop_all_drawCountOk]

/-- Witness for C6 at the concrete all-success environment. -/
theorem vertex_buffer_invariant_witness :
    envOk.initOk = true ∧ envOk.windowOk = true ∧
    ((main envOk).events.filter isBufferData = [Event.bufferData (6 * 4) positions] ∧
      positions.length = 2 * 3 ∧
      (main envOk).events.all drawCountOk = true) :=
  ⟨rfl, rfl, vertex_buffer_invariant envOk rfl rfl⟩

/-- Claim C7: when window creation fails, main terminates the library and
returns -1 having issued no buffer upload, no shader call and no draw
(the whole call trace is the failed window creation followed by
glfwTerminate); and the link and validation outcomes are silently
ignored: changing them alters neither the result, the output nor the
calls of `CreateShader`. -/
theorem window_failure_abort_and_silent_link (env : Env) (d : Driver)
    (b1 : Bool) (b2 : Bool) (v : String) (f : String)
    (h1 : env.initOk = true) (h2 : env.windowOk = false) :
    ((main env).ret = -1 ∧
      (main env).events = [Event.createWindow 640 480 "Hello World", Event.terminate]) ∧
    CreateShader { d with linkStatus := b1, validateStatus := b2 } v f
      = CreateShader d v f := by
  refine ⟨⟨?_, ?_⟩, rfl⟩ <;> simp [main, h1, h2]

/-- Witness for C7 at the concrete no-window environment. -/
theorem window_failure_abort_and_silent_link_witness :
    envNoWindow.initOk = true ∧ envNoWindow.windowOk = false ∧
    (((main envNoWindow).ret = -1 ∧
        (main envNoWindow).events =
          [Event.createWindow 640 480 "Hello World", Event.terminate]) ∧
      CreateShader { driverOk with linkStatus := false, validateStatus := false } "v" "f"
        = CreateShader driverOk "v" "f") :=
  ⟨rfl, rfl, window_failure_abort_and_silent_link envNoWindow driverOk false false "v" "f"
    rfl rfl⟩

/-- Claim C8: for the fixed embedded vertex/fragment source pair of main,
`CreateShader` returns the handle glCreateProgram produced; whenever that
handle is non-zero (as the graphics API guarantees in a valid context),
the builder returns a non-zero program handle. -/
theorem fixed_pair_nonzero_handle (d : Driver) (h : d.programId ≠ 0) :
    (CreateShader d vertexShaderSrc fragmentShaderSrc).program ≠ 0 := h

/-- Witness for C8 at a concrete driver with a non-zero program handle. -/
theorem fixed_pair_nonzero_handle_witness :
    driverOk.programId ≠ 0 ∧
    (CreateShader driverOk vertexShaderSrc fragmentShaderSrc).program ≠ 0 :=
  ⟨by decide, fixed_pair_nonzero_handle driverOk (by decide)⟩

/-- Claim C9: the two startup failure paths are asymmetric: a glfwInit
failure returns -1 with no teardown at all (no glfwTerminate), while a
window-creation failure calls glfwTerminate and then returns -1; both
return the same code -1, so the caller cannot tell them apart. -/
theorem startup_failure_asymmetry (e1 : Env) (e2 : Env)
    (h1 : e1.initOk = false) (h2 : e2.initOk = true) (h3 : e2.windowOk = false) :
    (main e1).ret = -1 ∧ Event.terminate ∉ (main e1).events ∧
    (main e2).ret = -1 ∧ Event.terminate ∈ (main e2).events ∧
    (main e1).ret = (main e2).ret := by
  refine ⟨?_, ?_, ?_, ?_, ?_⟩ <;> simp [main, h1, h2, h3]

/-- Witness for C9 at the two concrete failing environments. -/
theorem startup_failure_asymmetry_witness :
    envNoInit.initOk = false ∧ envNoWindow.initOk = true ∧
    envNoWindow.windowOk = false ∧
    ((main envNoInit).ret = -1 ∧ Event.terminate ∉ (main envNoInit).events ∧
      (main envNoWindow).ret = -1 ∧ Event.terminate ∈ (main envNoWindow).events ∧
      (main envNoInit).ret = (main envNoWindow).ret) :=
  ⟨rfl, rfl, rfl, startup_failure_asymmetry envNoInit envNoWindow rfl rfl rfl⟩

/-- The parts of the graphics context state that the setup code of main
configures: the bound array buffer and its contents, the vertex-attribute
configuration, the program in use, and the clear color. -/
structure GLState where
  boundArrayBuffer : Nat
  bufferContents : List ℚ
  attribEnabled : Bool
  attribPointer : Nat × Nat × Nat × Nat
  usedProgram : Nat
  clearColorState : ℚ × ℚ × ℚ × ℚ
deriving DecidableEq, Repr

/-- The effect of one API call on the tracked context state; calls that
do not touch the tracked state (clear, draw, swap, poll, object
lifecycle) leave it unchanged. -/
def applyEvent (s : GLState) : Event → GLState
  | Event.bindBuffer id => { s with boundArrayBuffer := id }
  | Event.bufferData _ data => { s with bufferContents := data }
  | Event.enableVertexAttribArray _ => { s with attribEnabled := true }
  | Event.vertexAttribPointer i sz st off => { s with attribPointer := (i, sz, st, off) }
  | Event.useProgram id => { s with usedProgram := id }
  | Event.clearColor r g b a => { s with clearColorState := (r, g, b, a) }
  | _ => s

/-- The context state after a list of API calls. -/
def applyEvents (s : GLState) (es : List Event) : GLState := es.foldl applyEvent s

/-- Claim C10: one iteration of the loop body leaves every piece of setup
state unchanged — bound buffer, buffer contents, attribute configuration,
program in use — and (re)sets the clear color to the same fixed
(0.2, 0.2, 0.3, 1.0) from any starting state; and every iteration emits
the identical call list, so all frames issue identical commands. -/
theorem loop_preserves_setup_state (s : GLState) :
    (applyEvents s iterEvents).boundArrayBuffer = s.boundArrayBuffer ∧
    (applyEvents s iterEvents).bufferContents = s.bufferContents ∧
    (applyEvents s iterEvents).attribEnabled = s.attribEnabled ∧
    (applyEvents s iterEvents).attribPointer = s.attribPointer ∧
    (applyEvents s iterEvents).usedProgram = s.usedProgram ∧
    (applyEvents s iterEvents).clearColorState = (1/5, 1/5, 3/10, 1) ∧
    ∀ rest : List Bool, frameLoop (false :: rest) = iterEvents ++ frameLoop rest := by
  refine ⟨?_, ?_, ?_, ?_, ?_, ?_, fun rest => rfl⟩ <;>
    simp [applyEvents, iterEvents, applyEvent]

end GLApp
